import Mathlib

/-!
Shallow embedding of the multi-view slice synchronization and coordinate
mapping logic of the MPR-Viewer (`src/Code.py`, class BrainViewer).

The embedding models the observable widget state of the viewer: the three
slice IntVars (`slice_controls`), the three entry StringVars
(`slice_entries`), the per-view slider ranges, the temporary (hover)
crosshair lines, and the mouse flags.  Event handlers from the source are
translated one-to-one into pure state transformers.  Pixel coordinates
(matplotlib `event.xdata` / `event.ydata`) are rationals; `int(np.clip(v,
0, hi))` is modelled as `Int.floor (clip v 0 hi)` (the clip output is never
a negative non-integer, so Python's truncation toward zero agrees with
floor), and numpy clip is `min (max v lo) hi`.
-/

namespace BrainViewer

/-- The three anatomical planes.  In `Code.py` these are the dictionary keys
used for `slice_controls`, `slice_entries` and `axes`.  The `sagittal`
control holds the volume x index, `coronal` holds y, `axial` holds z. -/
inductive Plane where
  | axial
  | sagittal
  | coronal
deriving DecidableEq

/-- Shape of the loaded volume: `self.data.shape == (nx, ny, nz)`. -/
structure Shape where
  nx : ℕ
  ny : ℕ
  nz : ℕ
deriving DecidableEq

/-- The dimension index map of `Code.py`
(`{'sagittal': 0, 'coronal': 1, 'axial': 2}`), composed with the shape. -/
def dim (sh : Shape) : Plane → ℕ
  | .sagittal => sh.nx
  | .coronal => sh.ny
  | .axial => sh.nz

/-- Position of a view's crosshair lines: the x of the vertical line and
the y of the horizontal line (as set by `set_xdata` / `set_ydata`). -/
structure Crosshair where
  vline : ℤ
  hline : ℤ
deriving DecidableEq

/-- Observable widget state of the viewer. -/
structure ViewerState where
  /-- `self.slice_controls[p].get()` (tk IntVar per plane). -/
  slice_controls : Plane → ℤ
  /-- `self.slice_entries[p].get()` (tk StringVar per plane). -/
  slice_entries : Plane → String
  /-- configured `(from_, to)` of the slider of each plane. -/
  slider_range : Plane → ℤ × ℤ
  /-- visibility of the temporary (hover) crosshair lines per view. -/
  temp_visible : Plane → Bool
  /-- xdata of the temporary vertical line per view. -/
  temp_v : Plane → ℚ
  /-- ydata of the temporary horizontal line per view. -/
  temp_h : Plane → ℚ
  /-- `self.mouse_pressed`. -/
  mouse_pressed : Bool
  /-- `self.mouse_over_axes` (which view the pointer is over, if any). -/
  mouse_over_axes : Option Plane

/-- A matplotlib mouse event, reduced to what the handlers read:
`event.inaxes` (already resolved to the view name, as the source does with
its `next(k for k, v in self.axes.items() if v == event.inaxes)` lookup)
and the data coordinates `event.xdata`, `event.ydata`. -/
structure Event where
  inaxes : Option Plane
  xdata : ℚ
  ydata : ℚ

/-- numpy clip: `min(max(v, lo), hi)`. -/
def clip (v lo hi : ℚ) : ℚ := min (max v lo) hi

/-- Set one plane's IntVar and StringVar together, as every branch of
`update_cursor_position` and the success path of `on_entry_change` do:
`slice_controls[p].set(v)` followed by `slice_entries[p].set(str(v))`. -/
def setCE (p : Plane) (v : ℤ) (st : ViewerState) : ViewerState :=
  { st with
    slice_controls := fun q => if q = p then v else st.slice_controls q
    slice_entries := fun q => if q = p then toString v else st.slice_entries q }

/-- `BrainViewer.update_cursor_position` (Code.py lines 394-424), given a
loaded volume of shape `sh` and an event inside view `view`.  Note the
source clamps `event.xdata` with `self.data.shape[0] - 1` and
`event.ydata` with `self.data.shape[1] - 1` for every view. -/
def update_cursor_position (sh : Shape) (view : Plane) (xdata ydata : ℚ)
    (st : ViewerState) : ViewerState :=
  let x : ℤ := ⌊clip xdata 0 ((sh.nx : ℚ) - 1)⌋
  let y : ℤ := ⌊clip ydata 0 ((sh.ny : ℚ) - 1)⌋
  match view with
  | .axial =>
      let coronal_y : ℤ := (sh.ny : ℤ) - y - 1
      setCE .coronal coronal_y (setCE .sagittal x st)
  | .sagittal =>
      let coronal_x : ℤ := (sh.ny : ℤ) - x - 1
      setCE .axial y (setCE .coronal coronal_x st)
  | .coronal =>
      setCE .axial y (setCE .sagittal x st)

/-- `BrainViewer.update_crosshairs` (Code.py lines 245-276): the committed
crosshair line positions it writes for each view, from the current slice
controls (`x = sagittal`, `y = coronal`, `z = axial`). -/
def update_crosshairs (sh : Shape) (st : ViewerState) : Plane → Crosshair :=
  let x := st.slice_controls .sagittal
  let y := st.slice_controls .coronal
  let z := st.slice_controls .axial
  fun view =>
    match view with
    | .axial => ⟨x, (sh.ny : ℤ) - y - 1⟩
    | .sagittal => ⟨(sh.ny : ℤ) - y - 1, z⟩
    | .coronal => ⟨x, z⟩

/-- `BrainViewer.get_slice_display_params` (Code.py lines 174-185), with
the slider readings and the volume intensity extrema as inputs.  Returns
`(vmin, vmax)`. -/
def get_slice_display_params (brightness_var contrast_var data_min data_max : ℚ) :
    ℚ × ℚ :=
  let brightness := brightness_var / 100
  let contrast := (contrast_var + 100) / 100
  let data_range := data_max - data_min
  (data_min + brightness * data_range, data_max * contrast)

/-- Decimal value of a run of digit characters. -/
def digitsVal (cs : List Char) : ℕ :=
  cs.foldl (fun acc c => 10 * acc + (c.toNat - 48)) 0

/-- Model of Python `int(s)` on a string: strip surrounding whitespace,
allow one leading sign, then a nonempty run of decimal digits.  (Python
additionally accepts underscore digit grouping, which no state reachable
here produces and no claim exercises.)  `none` models the `ValueError`. -/
def pyParseInt (s : String) : Option ℤ :=
  let t := ((s.data.dropWhile Char.isWhitespace).reverse.dropWhile
    Char.isWhitespace).reverse
  let sc : ℤ × List Char :=
    match t with
    | '-' :: rest => (-1, rest)
    | '+' :: rest => (1, rest)
    | _ => (1, t)
  if sc.2 ≠ [] ∧ sc.2.all Char.isDigit then some (sc.1 * (digitsVal sc.2 : ℤ))
  else none

/-- `BrainViewer.on_entry_change` (Code.py lines 353-365).  `data` is the
loaded shape (`none` models `self.data is None`).  On a parse failure the
`except ValueError` branch resets the entry to `str` of the current
IntVar value; on success the value is clamped (when a volume is loaded)
and both widgets are set. -/
def on_entry_change (data : Option Shape) (plane : Plane) (st : ViewerState) :
    ViewerState :=
  match pyParseInt (st.slice_entries plane) with
  | some v =>
      let v2 : ℤ :=
        match data with
        | some sh => max 0 (min v ((dim sh plane : ℤ) - 1))
        | none => v
      setCE plane v2 st
  | none =>
      { st with
        slice_entries := fun q =>
          if q = plane then toString (st.slice_controls plane)
          else st.slice_entries q }

/-- `BrainViewer.initialize_slice_positions` (Code.py lines 155-172), for a
loaded volume of shape `sh`: every plane's IntVar and StringVar are set to
`(dim - 1) // 2` (Python floor division, `Int.fdiv`) and its slider is
reconfigured to `from_=0, to=dim-1`. -/
def init_slice_positions (sh : Shape) (st : ViewerState) : ViewerState :=
  { st with
    slice_controls := fun p => Int.fdiv ((dim sh p : ℤ) - 1) 2
    slice_entries := fun p => toString (Int.fdiv ((dim sh p : ℤ) - 1) 2)
    slider_range := fun p => (0, (dim sh p : ℤ) - 1) }

/-- `BrainViewer.update_temp_crosshairs` (Code.py lines 300-320): returns
unchanged when the event is outside every view or no volume is loaded;
otherwise hides all temporary lines, then shows the hovered view's pair at
the raw event coordinates. -/
def update_temp_crosshairs (data : Option Shape) (e : Event) (st : ViewerState) :
    ViewerState :=
  match e.inaxes, data with
  | some view, some _ =>
      { st with
        temp_visible := fun p => if p = view then true else false
        temp_v := fun p => if p = view then e.xdata else st.temp_v p
        temp_h := fun p => if p = view then e.ydata else st.temp_h p }
  | _, _ => st

/-- `BrainViewer.on_motion` (Code.py lines 375-380). -/
def on_motion (data : Option Shape) (e : Event) (st : ViewerState) : ViewerState :=
  match e.inaxes, data with
  | some view, some sh =>
      if st.mouse_pressed then update_cursor_position sh view e.xdata e.ydata st
      else update_temp_crosshairs data e st
  | _, _ => st

/-- `BrainViewer.on_click` (Code.py lines 382-385). -/
def on_click (data : Option Shape) (e : Event) (st : ViewerState) : ViewerState :=
  match e.inaxes, data with
  | some view, some sh =>
      update_cursor_position sh view e.xdata e.ydata { st with mouse_pressed := true }
  | _, _ => st

/-- `BrainViewer.on_release` (Code.py lines 387-388). -/
def on_release (st : ViewerState) : ViewerState :=
  { st with mouse_pressed := false }

/-- `BrainViewer.on_axes_enter` (Code.py lines 367-368). -/
def on_axes_enter (view : Plane) (st : ViewerState) : ViewerState :=
  { st with mouse_over_axes := some view }

/-- `BrainViewer.on_axes_leave` (Code.py lines 370-373): clears
`mouse_over_axes`, then calls `update_image_data` and `update_crosshairs`,
which redraw but change none of the state modelled here; in particular the
temporary crosshair lines keep their visibility. -/
def on_axes_leave (st : ViewerState) : ViewerState :=
  { st with mouse_over_axes := none }

/-- The slice indices `BrainViewer.update_image_data` (Code.py lines
278-298) uses are in bounds for numpy: it extracts `data[x, :, :]`,
`data[:, y, :]` and `data[:, :, z]` with `x = slice_controls sagittal`,
`y = slice_controls coronal`, `z = slice_controls axial`. -/
def sliceIndicesInBounds (sh : Shape) (st : ViewerState) : Prop :=
  st.slice_controls .sagittal < (sh.nx : ℤ) ∧
  st.slice_controls .coronal < (sh.ny : ℤ) ∧
  st.slice_controls .axial < (sh.nz : ℤ)

instance (sh : Shape) (st : ViewerState) : Decidable (sliceIndicesInBounds sh st) := by
  unfold sliceIndicesInBounds
  infer_instance

/-- A concrete viewer state with the given slice controls, matching
widget defaults otherwise (entries in sync, sliders at the initial
`from_=0, to=100`, temporary lines hidden, mouse released). -/
def mkState (f : Plane → ℤ) : ViewerState :=
  { slice_controls := f
    slice_entries := fun p => toString (f p)
    slider_range := fun _ => (0, 100)
    temp_visible := fun _ => false
    temp_v := fun _ => 0
    temp_h := fun _ => 0
    mouse_pressed := false
    mouse_over_axes := none }

/-- The volume shape `(10, 20, 30)` used in the spec's scenarios. -/
def shapeA : Shape := ⟨10, 20, 30⟩

/-- A volume shape `(10, 20, 5)` whose z extent is smaller than the first
two extents. -/
def shapeB : Shape := ⟨10, 20, 5⟩

/-- State with all three slice controls at 0. -/
def zeroState : ViewerState := mkState (fun _ => 0)

/-- State with the coronal control at 7 and the coronal entry holding the
uncommitted text "abc". -/
def c5State : ViewerState :=
  { mkState (fun p => if p = .coronal then 7 else 0) with
    slice_entries := fun p => if p = .coronal then "abc" else "0" }

/-- C1: the claim's round trip, evaluated at the failing input.  For shape
`(10, 20, 30)` and the in-range cursor `(0, 0, 0)`, the sagittal crosshair
is placed at pixel `(19, 0)`; feeding that exact pixel back through the
sagittal pixel-to-index mapping stores `10` in the coronal (y) control, not
the original `0`, because `update_cursor_position` clamps the horizontal
pixel with `shape[0] - 1 = 9` for every view. -/
theorem c1_crosshair_roundtrip_bug :
    update_crosshairs shapeA zeroState Plane.sagittal = ⟨19, 0⟩ ∧
    zeroState.slice_controls Plane.coronal = 0 ∧
    (update_cursor_position shapeA Plane.sagittal
        ((update_crosshairs shapeA zeroState Plane.sagittal).vline : ℚ)
        ((update_crosshairs shapeA zeroState Plane.sagittal).hline : ℚ)
        zeroState).slice_controls Plane.coronal = 10 := by
  have h : update_crosshairs shapeA zeroState Plane.sagittal = ⟨19, 0⟩ := by decide
  refine ⟨h, rfl, ?_⟩
  rw [h]
  norm_num [update_cursor_position, setCE, clip, shapeA]
  all_goals decide

/-- C2: the clamping invariant, evaluated at a failing click.  For shape
`(10, 20, 5)` a click on the sagittal view at pixel `(0, 19)` stores `19`
in the axial (z) control, which is outside `[0, dim - 1] = [0, 4]` and is
not `max 0 (min 19 4) = 4`: clicks clamp against `shape[0]` and `shape[1]`
rather than the written axis's own dimension. -/
theorem c2_click_clamp_violation :
    (update_cursor_position shapeB Plane.sagittal 0 19 zeroState).slice_controls
        Plane.axial = 19 ∧
    ¬ ((update_cursor_position shapeB Plane.sagittal 0 19 zeroState).slice_controls
        Plane.axial ≤ (dim shapeB Plane.axial : ℤ) - 1) ∧
    (update_cursor_position shapeB Plane.sagittal 0 19 zeroState).slice_controls
        Plane.axial ≠ max 0 (min 19 ((dim shapeB Plane.axial : ℤ) - 1)) := by
  have hax : (update_cursor_position shapeB Plane.sagittal 0 19 zeroState).slice_controls
      Plane.axial = 19 := by
    norm_num [update_cursor_position, setCE, clip, shapeB]
  refine ⟨hax, ?_, ?_⟩ <;> rw [hax] <;> norm_num [dim, shapeB]

/-- C3: for brightness and contrast slider values in `[-100, 100]`,
`get_slice_display_params` returns
`vmin = dataMin + (brightness / 100) * (dataMax - dataMin)` and
`vmax = dataMax * ((contrast + 100) / 100)`. -/
theorem c3_display_range_formula (b c mn mx : ℚ)
    (hb1 : -100 ≤ b) (hb2 : b ≤ 100) (hc1 : -100 ≤ c) (hc2 : c ≤ 100) :
    get_slice_display_params b c mn mx =
      (mn + (b / 100) * (mx - mn), mx * ((c + 100) / 100)) := rfl

/-- C3 witness: brightness = 50, contrast = 0, dataMin = 0, dataMax = 200
gives vmin = 100 and vmax = 200. -/
theorem c3_display_range_witness :
    get_slice_display_params 50 0 0 200 = (100, 200) := by
  rw [c3_display_range_formula 50 0 0 200 (by norm_num) (by norm_num)
    (by norm_num) (by norm_num)]
  norm_num

/-- C4: on a volume of shape `(10, 20, 30)`, a click on the axial view at
pixel `(3, 5)` sets the sagittal (x) control to `3` and the coronal (y)
control to `14 = 20 - 5 - 1`, and leaves the axial (z) control unchanged,
whatever the prior state. -/
theorem c4_axial_click_scenario (st : ViewerState) :
    (update_cursor_position shapeA Plane.axial 3 5 st).slice_controls
        Plane.sagittal = 3 ∧
    (update_cursor_position shapeA Plane.axial 3 5 st).slice_controls
        Plane.coronal = 14 ∧
    (update_cursor_position shapeA Plane.axial 3 5 st).slice_controls
        Plane.axial = st.slice_controls Plane.axial := by
  refine ⟨?_, ?_, ?_⟩ <;> norm_num [update_cursor_position, setCE, clip, shapeA] <;>
    first
    | decide
    | rfl

/-- C5: when the committed entry text of an axis does not parse as an
integer, `on_entry_change` resets only that entry field to the string of
the axis's current control value and leaves every other part of the state
(the cursor controls included) unchanged. -/
theorem c5_entry_parse_failure_reverts (data : Option Shape) (plane : Plane)
    (st : ViewerState) (h : pyParseInt (st.slice_entries plane) = none) :
    on_entry_change data plane st =
      { st with
        slice_entries := fun q =>
          if q = plane then toString (st.slice_controls plane)
          else st.slice_entries q } := by
  unfold on_entry_change
  rw [h]

/-- C5 witness: entry text "abc" on the coronal axis with prior value 7
reverts the entry to "7" and keeps the cursor controls. -/
theorem c5_entry_parse_failure_witness :
    pyParseInt (c5State.slice_entries Plane.coronal) = none ∧
    on_entry_change (some shapeA) Plane.coronal c5State =
      { c5State with
        slice_entries := fun q =>
          if q = Plane.coronal then toString (c5State.slice_controls Plane.coronal)
          else c5State.slice_entries q } ∧
    (on_entry_change (some shapeA) Plane.coronal c5State).slice_entries
        Plane.coronal = "7" ∧
    (on_entry_change (some shapeA) Plane.coronal c5State).slice_controls
        Plane.coronal = 7 := by
  have hp : pyParseInt (c5State.slice_entries Plane.coronal) = none := by decide
  have h := c5_entry_parse_failure_reverts (some shapeA) Plane.coronal c5State hp
  refine ⟨hp, h, ?_, ?_⟩ <;> rw [h] <;> decide

/-- C6: a click or drag on a view leaves the slice control of the axis
that view does not address (z for the axial view, x for the sagittal view,
y for the coronal view — i.e. the clicked view's own plane) unchanged. -/
theorem c6_unaddressed_axis_unchanged (sh : Shape) (view : Plane)
    (xdata ydata : ℚ) (st : ViewerState) :
    (update_cursor_position sh view xdata ydata st).slice_controls view =
      st.slice_controls view := by
  cases view <;> simp [update_cursor_position, setCE]

/-- C7: brightness slider 0 and contrast slider 0 give the identity display
range `(dataMin, dataMax)`. -/
theorem c7_brightness_contrast_neutral (mn mx : ℚ) :
    get_slice_display_params 0 0 mn mx = (mn, mx) := by
  unfold get_slice_display_params
  norm_num

/-- C8 counterexample: after hovering over the axial view (mouse released),
leaving the axes does NOT hide the temporary crosshair overlay — the claim
that the overlay is hidden when the pointer leaves any view is false, since
`on_axes_leave` never touches the temporary lines. -/
theorem c8_overlay_left_visible_cex :
    (on_axes_leave (on_motion (some shapeA) ⟨some Plane.axial, 2, 3⟩
        zeroState)).temp_visible Plane.axial = true := by decide

/-- C8 amended: a motion event with no mouse button held changes neither
the slice controls nor the entries (it only updates the temporary hover
overlay), and leaving the axes leaves the temporary overlay's visibility
exactly as it was (in particular it is not hidden). -/
theorem c8_hover_frame_amended (data : Option Shape) (e : Event)
    (st st2 : ViewerState) (h : st.mouse_pressed = false) :
    (on_motion data e st).slice_controls = st.slice_controls ∧
    (on_motion data e st).slice_entries = st.slice_entries ∧
    (on_axes_leave st2).temp_visible = st2.temp_visible := by
  refine ⟨?_, ?_, rfl⟩ <;>
    rcases he : e.inaxes with _ | view <;> rcases hd : data with _ | sh <;>
      simp [on_motion, update_temp_crosshairs, he, hd, h]

/-- C8 amended, witness: a hover over the axial view at `(2, 3)` from the
all-zero state changes no slice control and no entry, and leaving the axes
keeps the overlay visibility. -/
theorem c8_hover_frame_witness :
    (on_motion (some shapeA) ⟨some Plane.axial, 2, 3⟩ zeroState).slice_controls =
      zeroState.slice_controls ∧
    (on_motion (some shapeA) ⟨some Plane.axial, 2, 3⟩ zeroState).slice_entries =
      zeroState.slice_entries ∧
    (on_axes_leave zeroState).temp_visible = zeroState.temp_visible :=
  c8_hover_frame_amended (some shapeA) ⟨some Plane.axial, 2, 3⟩ zeroState
    zeroState rfl

/-- C9: slice-extraction safety fails on a reachable state.  Load a volume
of shape `(10, 20, 5)` (cursor initialized to the middle slices), then
click on the sagittal view at pixel `(0, 19)`: the axial control becomes
`19`, and `update_image_data` would extract `data[:, :, 19]` with
`Nz = 5` — out of bounds. -/
theorem c9_slice_index_out_of_bounds :
    (on_click (some shapeB) ⟨some Plane.sagittal, 0, 19⟩
        (init_slice_positions shapeB zeroState)).slice_controls Plane.axial = 19 ∧
    ¬ sliceIndicesInBounds shapeB
        (on_click (some shapeB) ⟨some Plane.sagittal, 0, 19⟩
          (init_slice_positions shapeB zeroState)) := by
  have hax : (on_click (some shapeB) ⟨some Plane.sagittal, 0, 19⟩
      (init_slice_positions shapeB zeroState)).slice_controls Plane.axial = 19 := by
    norm_num [on_click, update_cursor_position, setCE, clip, shapeB]
  refine ⟨hax, fun hb => ?_⟩
  have h3 := hb.2.2
  rw [hax] at h3
  norm_num [shapeB] at h3

/-- C10: after a successful load of a volume of shape `(nx, ny, nz)`, the
sagittal, coronal and axial controls hold `(nx-1) // 2`, `(ny-1) // 2` and
`(nz-1) // 2` (Python floor division), and each axis's slider range is
`[0, dim-1]`. -/
theorem c10_init_slice_positions_spec (sh : Shape) (st : ViewerState) :
    (init_slice_positions sh st).slice_controls Plane.sagittal =
        Int.fdiv ((sh.nx : ℤ) - 1) 2 ∧
    (init_slice_positions sh st).slice_controls Plane.coronal =
        Int.fdiv ((sh.ny : ℤ) - 1) 2 ∧
    (init_slice_positions sh st).slice_controls Plane.axial =
        Int.fdiv ((sh.nz : ℤ) - 1) 2 ∧
    (init_slice_positions sh st).slider_range Plane.sagittal = (0, (sh.nx : ℤ) - 1) ∧
    (init_slice_positions sh st).slider_range Plane.coronal = (0, (sh.ny : ℤ) - 1) ∧
    (init_slice_positions sh st).slider_range Plane.axial = (0, (sh.nz : ℤ) - 1) :=
  ⟨rfl, rfl, rfl, rfl, rfl, rfl⟩

end BrainViewer
